import Mathlib

/-!
Verification of the voice-controlled LED pipeline (`voice.py`).

The program is shallowly embedded: each external call the script makes
(GPIO, PyAudio, Vosk recognizer, printing) is recorded as an `Effect`,
pure string processing is translated to functions on `List Char`, and
the main capture loop is modelled as a trace-producing function over the
sequence of frame reads the environment delivers.
-/

namespace VoiceLed

/-- Actuator (LED) level, as driven through `GPIO.output` (`GPIO.HIGH` /
`GPIO.LOW` in `voice.py`). -/
inductive Level where
  | high
  | low
deriving DecidableEq

/-- Spec-level command derived from a final recognition text
(`TurnOn` / `TurnOff` / `None`). -/
inductive Command where
  | turnOn
  | turnOff
  | none
deriving DecidableEq

/-- Observable effects of the script: every GPIO, audio, recognizer and
print call that `voice.py` performs.  `freeRecognizer` is in the
vocabulary because the spec speaks of releasing the recognizer handle;
the script itself never performs it. -/
inductive Effect where
  | gpioSetup
  | gpioOutput (lvl : Level)
  | gpioCleanup
  | openAudio
  | startStream
  | streamRead
  | acceptWaveform
  | stopStream
  | closeStream
  | terminateAudio
  | freeRecognizer
  | printMsg (s : String)
deriving DecidableEq

/-- Boolean test that `n` is a leading segment of `h`, as used to decide
Python substring containment. -/
def isPrefixL : List Char → List Char → Bool
  | [], _ => true
  | _ :: _, [] => false
  | a :: as, b :: bs => a == b && isPrefixL as bs

/-- Python's `n in h` substring test on strings, translated to character
lists: `n` occurs contiguously somewhere in `h`. -/
def containsSub (n : List Char) : List Char → Bool
  | [] => isPrefixL n []
  | b :: bs => isPrefixL n (b :: bs) || containsSub n bs

/-- Propositional form of substring containment: some occurrence of `n`
sits between a front part and a back part of `h`. -/
def SubstringOf (n h : List Char) : Prop :=
  ∃ front back, front ++ n ++ back = h

/-- Python's `str.lower()` restricted to the character-wise lowering the
script relies on for its ASCII keywords. -/
def pyLower (t : List Char) : List Char :=
  t.map Char.toLower

/-- The keyword `"on"` from `voice.py` line 62. -/
def onKw : List Char := "on".toList

/-- The keyword `"off"` from `voice.py` line 66. -/
def offKw : List Char := "off".toList

/-- Effects of `handle_command(command_text)` (`voice.py` lines 52-68):
if the text contains `"on"` print and drive the pin HIGH, else if it
contains `"off"` print and drive the pin LOW, else do nothing. -/
def handle_command (command_text : List Char) : List Effect :=
  if containsSub onKw command_text then
    [Effect.printMsg "Command recognized: Turning LED ON",
     Effect.gpioOutput Level.high]
  else if containsSub offKw command_text then
    [Effect.printMsg "Command recognized: Turning LED OFF",
     Effect.gpioOutput Level.low]
  else []

/-- The command that `handle_command` acts out for a given (already
lowercased) text: the keyword rule of `voice.py` lines 62-68 read at the
`Command` level. -/
def recognizeCommand (t : List Char) : Command :=
  if containsSub onKw t then Command.turnOn
  else if containsSub offKw t then Command.turnOff
  else Command.none

/-- The effects `handle_command` emits for each recognized command. -/
def cmdEffects : Command → List Effect
  | Command.turnOn =>
      [Effect.printMsg "Command recognized: Turning LED ON",
       Effect.gpioOutput Level.high]
  | Command.turnOff =>
      [Effect.printMsg "Command recognized: Turning LED OFF",
       Effect.gpioOutput Level.low]
  | Command.none => []

/-- Dispatch on a final result text, as `main` performs it (`voice.py`
lines 99-102): lowercase the recognizer result, then apply the keyword
rule. -/
def dispatch (t : List Char) : Command :=
  recognizeCommand (pyLower t)

/-- How one effect changes the actuator level: `GPIO.output` drives the
pin, `GPIO.cleanup` releases the pin to its de-energized default (the
LED is unlit, i.e. `low`); nothing else touches the pin. -/
def applyEffect (led : Level) : Effect → Level
  | Effect.gpioOutput l => l
  | Effect.gpioCleanup => Level.low
  | _ => led

/-- Actuator level after a sequence of effects. -/
def applyEffects (led : Level) (es : List Effect) : Level :=
  es.foldl applyEffect led

/-- Environment input for one iteration of the capture loop: the length
of the chunk `stream.read` returned, whether `AcceptWaveform` accepted
it as a final utterance, the `Result()` text if so, and the
`PartialResult()` text otherwise. -/
structure FrameInput where
  dataLen : Nat
  accepted : Bool
  result : List Char
  partRes : List Char

/-- Effects of one iteration of the `while True` loop (`voice.py` lines
86-107): read a chunk; if it is empty skip the rest; otherwise feed it
to the recognizer, and on a final result print it, lowercase it and run
`handle_command`, while a mere partial result is only printed. -/
def loopIter (f : FrameInput) : List Effect :=
  Effect.streamRead ::
    (if f.dataLen = 0 then []
     else
       Effect.acceptWaveform ::
         (if f.accepted then
            Effect.printMsg ("Full result: " ++ String.mk f.result) ::
              handle_command (pyLower f.result)
          else
            [Effect.printMsg ("Partial result: " ++ String.mk f.partRes)]))

/-- Effects of running the loop over a sequence of delivered frames. -/
def runLoop : List FrameInput → List Effect
  | [] => []
  | f :: fs => loopIter f ++ runLoop fs

/-- How the `try` block is exited: a `KeyboardInterrupt` (caught) or any
other fatal runtime exception (uncaught, but the `finally` still runs). -/
inductive ExitCause where
  | interrupted
  | fatal

/-- A complete run of the process as the environment shapes it: whether
the model directory exists, the frames delivered before the loop is
exited, and what exits it. -/
structure Scenario where
  modelExists : Bool
  frames : List FrameInput
  cause : ExitCause

/-- How the process ends: normal (zero) exit, the startup
`FileNotFoundError` for a missing model, or a propagated fatal error. -/
inductive Outcome where
  | exitZero
  | modelNotFound
  | fatalError
deriving DecidableEq

/-- Effects of `setup_gpio()` (`voice.py` lines 13-20): configure the
pin and initialize the LED to LOW. -/
def setupGpioTrace : List Effect :=
  [Effect.gpioSetup, Effect.gpioOutput Level.low]

/-- Effects of `setup_audio_stream()` and the ready message (`voice.py`
lines 80-82). -/
def listenTrace : List Effect :=
  [Effect.openAudio, Effect.startStream,
   Effect.printMsg "Listening for \x27ON\x27 or \x27OFF\x27 commands..."]

/-- Effect of the `except KeyboardInterrupt` handler (`voice.py` lines
109-111): only on interrupt, a diagnostic print. -/
def causeTrace : ExitCause → List Effect
  | ExitCause.interrupted => [Effect.printMsg "Program interrupted by user."]
  | ExitCause.fatal => []

/-- Effects of the `finally` block when no step raises (`voice.py` lines
113-118): GPIO cleanup, stop the stream, close it, terminate PyAudio. -/
def shutdownTrace : List Effect :=
  [Effect.gpioCleanup, Effect.stopStream, Effect.closeStream,
   Effect.terminateAudio]

/-- Full effect trace of `main()` (`voice.py` lines 71-119): GPIO setup
runs first; if the model directory is missing, `setup_recognizer` raises
before anything else happens (the `try` is never entered, so no cleanup
runs); otherwise the audio stream is opened, the loop runs over the
delivered frames, the interrupt handler may print, and the `finally`
block and the final print close the run. -/
def mainTrace (sc : Scenario) : List Effect :=
  setupGpioTrace ++
    (if sc.modelExists then
       listenTrace ++ runLoop sc.frames ++ causeTrace sc.cause ++
         shutdownTrace ++ [Effect.printMsg "Cleaned up and exiting..."]
     else [])

/-- Process outcome of `main()`: a missing model raises
`FileNotFoundError`; a `KeyboardInterrupt` is caught so the run ends
normally; any other exception propagates after the `finally`. -/
def mainOutcome (sc : Scenario) : Outcome :=
  if sc.modelExists then
    match sc.cause with
    | ExitCause.interrupted => Outcome.exitZero
    | ExitCause.fatal => Outcome.fatalError
  else Outcome.modelNotFound

/-- Fault-injection input for the `finally` block: whether each of its
four external calls raises when invoked. -/
structure ShutdownFaults where
  cleanupFails : Bool
  stopFails : Bool
  closeFails : Bool
  terminateFails : Bool

/-- Run a list of (effect, raises?) steps with Python statement
semantics inside a `finally` block: a step that raises is attempted but
aborts the remaining steps, and the raised exception propagates
(replacing any in-flight exception). -/
def runSteps : List (Effect × Bool) → List Effect × Bool
  | [] => ([], false)
  | (e, f) :: rest =>
      if f then ([e], true)
      else
        let r := runSteps rest
        (e :: r.1, r.2)

/-- The four unguarded statements of the `finally` block (`voice.py`
lines 113-118) under fault injection. -/
def finallyRun (fl : ShutdownFaults) : List Effect × Bool :=
  runSteps
    [(Effect.gpioCleanup, fl.cleanupFails),
     (Effect.stopStream, fl.stopFails),
     (Effect.closeStream, fl.closeFails),
     (Effect.terminateAudio, fl.terminateFails)]

/-- Does an effect write the actuator (a `GPIO.output` call)? -/
def isGpioWrite : Effect → Bool
  | Effect.gpioOutput _ => true
  | _ => false

/-- The boolean leading-segment test agrees with its existential reading. -/
theorem isPrefixL_iff (n : List Char) :
    ∀ h : List Char, isPrefixL n h = true ↔ ∃ back, n ++ back = h := by
  induction n with
  | nil =>
      intro h
      exact ⟨fun _ => ⟨h, rfl⟩, fun _ => rfl⟩
  | cons a as ih =>
      intro h
      cases h with
      | nil => simp [isPrefixL]
      | cons b bs =>
          simp only [isPrefixL, Bool.and_eq_true, ih bs]
          constructor
          · rintro ⟨hab, back, hback⟩
            exact ⟨back, by rw [List.cons_append, hback, eq_of_beq hab]⟩
          · rintro ⟨back, hback⟩
            rw [List.cons_append] at hback
            injection hback with h1 h2
            exact ⟨by rw [h1]; exact beq_self_eq_true b, back, h2⟩

/-- Python substring containment agrees with `SubstringOf`. -/
theorem containsSub_iff (n : List Char) :
    ∀ h : List Char, containsSub n h = true ↔ SubstringOf n h := by
  intro h
  induction h with
  | nil =>
      simp only [containsSub, isPrefixL_iff, SubstringOf]
      constructor
      · rintro ⟨back, hb⟩
        exact ⟨[], back, hb⟩
      · rintro ⟨front, back, hfb⟩
        rcases List.append_eq_nil.mp hfb with ⟨hf, hb⟩
        rcases List.append_eq_nil.mp hf with ⟨hfr, hn⟩
        exact ⟨[], by simp [hn]⟩
  | cons b bs ih =>
      simp only [containsSub, Bool.or_eq_true, isPrefixL_iff, ih]
      constructor
      · rintro (⟨back, hb⟩ | ⟨front, back, hfb⟩)
        · exact ⟨[], back, hb⟩
        · exact ⟨b :: front, back,
            by rw [List.cons_append, List.cons_append, hfb]⟩
      · rintro ⟨front, back, hfb⟩
        cases front with
        | nil => exact Or.inl ⟨back, by simpa using hfb⟩
        | cons c cs =>
            right
            simp only [List.cons_append, List.cons.injEq] at hfb
            exact ⟨cs, back, hfb.2⟩

/-- Negated form of the substring correspondence. -/
theorem containsSub_eq_false_iff (n h : List Char) :
    containsSub n h = false ↔ ¬ SubstringOf n h := by
  rw [← containsSub_iff]
  cases containsSub n h <;> simp

instance instDecidableSubstringOf (n h : List Char) :
    Decidable (SubstringOf n h) :=
  decidable_of_iff _ (containsSub_iff n h)

/-- `handle_command` emits exactly the effects of the command the
keyword rule recognizes. -/
theorem handle_command_eq (t : List Char) :
    handle_command t = cmdEffects (recognizeCommand t) := by
  by_cases hOn : containsSub onKw t = true
  · simp [handle_command, recognizeCommand, cmdEffects, hOn]
  · by_cases hOff : containsSub offKw t = true
    · simp [handle_command, recognizeCommand, cmdEffects, hOn, hOff]
    · simp [handle_command, recognizeCommand, cmdEffects, hOn, hOff]

/-- The actuator level after concatenated effect lists composes. -/
theorem applyEffects_append (led : Level) (a b : List Effect) :
    applyEffects led (a ++ b) = applyEffects (applyEffects led a) b := by
  simp [applyEffects, List.foldl_append]

/-- Every effect `handle_command` emits is a print or a GPIO write. -/
theorem mem_handle_command (t : List Char) (e : Effect)
    (he : e ∈ handle_command t) :
    (∃ s, e = Effect.printMsg s) ∨ (∃ l, e = Effect.gpioOutput l) := by
  rw [handle_command_eq] at he
  cases hc : recognizeCommand t <;> rw [hc] at he <;>
    simp only [cmdEffects] at he
  · rcases List.mem_cons.mp he with h | he
    · exact Or.inl ⟨_, h⟩
    · rcases List.mem_cons.mp he with h | he
      · exact Or.inr ⟨_, h⟩
      · cases he
  · rcases List.mem_cons.mp he with h | he
    · exact Or.inl ⟨_, h⟩
    · rcases List.mem_cons.mp he with h | he
      · exact Or.inr ⟨_, h⟩
      · cases he
  · cases he

/-- Every effect a loop iteration emits is a read, an accept, a print or
a GPIO write: the loop body touches no lifecycle resource. -/
theorem mem_loopIter (f : FrameInput) (e : Effect) (he : e ∈ loopIter f) :
    e = Effect.streamRead ∨ e = Effect.acceptWaveform ∨
      (∃ s, e = Effect.printMsg s) ∨ (∃ l, e = Effect.gpioOutput l) := by
  unfold loopIter at he
  rcases List.mem_cons.mp he with h | he
  · exact Or.inl h
  by_cases h0 : f.dataLen = 0
  · simp [h0] at he
  · rw [if_neg h0] at he
    rcases List.mem_cons.mp he with h | he
    · exact Or.inr (Or.inl h)
    cases ha : f.accepted
    · rw [ha] at he
      simp only [Bool.false_eq_true, if_false, List.mem_singleton] at he
      exact Or.inr (Or.inr (Or.inl ⟨_, he⟩))
    · rw [ha] at he
      simp only [if_true] at he
      rcases List.mem_cons.mp he with h | he
      · exact Or.inr (Or.inr (Or.inl ⟨_, h⟩))
      · exact Or.inr (Or.inr (mem_handle_command _ _ he))

/-- No lifecycle effect (cleanup, stream stop/close, terminate, or a
recognizer release) ever occurs inside the capture loop. -/
theorem runLoop_no_lifecycle (fs : List FrameInput) (e : Effect)
    (hc : e = Effect.gpioCleanup ∨ e = Effect.stopStream ∨
      e = Effect.closeStream ∨ e = Effect.terminateAudio ∨
      e = Effect.freeRecognizer ∨ e = Effect.gpioSetup ∨
      e = Effect.openAudio ∨ e = Effect.startStream) :
    e ∉ runLoop fs := by
  induction fs with
  | nil => simp [runLoop]
  | cons f fs ih =>
      intro hmem
      rcases List.mem_append.mp hmem with h | h
      · rcases mem_loopIter f e h with h' | h' | ⟨s, h'⟩ | ⟨l, h'⟩ <;>
          rcases hc with hc | hc | hc | hc | hc | hc | hc | hc <;>
            subst h' <;> cases hc
      · exact ih h

/-- The full trace of a run that reaches the loop splits into everything
before the `finally` block and the `finally` block with its final print. -/
theorem mainTrace_split (frames : List FrameInput) (cause : ExitCause) :
    mainTrace ⟨true, frames, cause⟩ =
      (setupGpioTrace ++ listenTrace ++ runLoop frames ++ causeTrace cause)
        ++ (shutdownTrace ++ [Effect.printMsg "Cleaned up and exiting..."]) := by
  simp [mainTrace, List.append_assoc]

/-- Whatever level the actuator holds, the `finally` effects leave it at
`low`: the GPIO cleanup de-energizes the pin and nothing after touches it. -/
theorem applyEffects_shutdown_low (x : Level) :
    applyEffects x
      (shutdownTrace ++ [Effect.printMsg "Cleaned up and exiting..."])
      = Level.low := rfl

/-- Claim C1: dispatch on a final result text is a pure function of the
text's lowercase form: a lowercase `"on"` occurrence yields `TurnOn` and
drives the pin HIGH, else a lowercase `"off"` occurrence yields
`TurnOff` and drives the pin LOW, else no command is derived and no
actuator call is made; in particular the four documented example texts
dispatch to `TurnOn`, `TurnOff`, `None` and `TurnOn` respectively. -/
theorem dispatch_pure_keyword_rule (t t2 : List Char) (led : Level) :
    (pyLower t = pyLower t2 → dispatch t = dispatch t2)
    ∧ (SubstringOf onKw (pyLower t) →
        dispatch t = Command.turnOn
        ∧ applyEffects led (handle_command (pyLower t)) = Level.high)
    ∧ (¬ SubstringOf onKw (pyLower t) → SubstringOf offKw (pyLower t) →
        dispatch t = Command.turnOff
        ∧ applyEffects led (handle_command (pyLower t)) = Level.low)
    ∧ (¬ SubstringOf onKw (pyLower t) → ¬ SubstringOf offKw (pyLower t) →
        dispatch t = Command.none ∧ handle_command (pyLower t) = [])
    ∧ dispatch "Turn ON the light".toList = Command.turnOn
    ∧ dispatch "please turn off".toList = Command.turnOff
    ∧ dispatch "hello world".toList = Command.none
    ∧ dispatch "onion soup".toList = Command.turnOn := by
  refine ⟨?_, ?_, ?_, ?_, by decide, by decide, by decide, by decide⟩
  · intro h
    unfold dispatch
    rw [h]
  · intro hOn
    have hb : containsSub onKw (pyLower t) = true :=
      (containsSub_iff _ _).mpr hOn
    have hrc : recognizeCommand (pyLower t) = Command.turnOn := by
      simp [recognizeCommand, hb]
    exact ⟨by simp [dispatch, hrc], by rw [handle_command_eq, hrc]; rfl⟩
  · intro hOn hOff
    have hbn : containsSub onKw (pyLower t) = false :=
      (containsSub_eq_false_iff _ _).mpr hOn
    have hbf : containsSub offKw (pyLower t) = true :=
      (containsSub_iff _ _).mpr hOff
    have hrc : recognizeCommand (pyLower t) = Command.turnOff := by
      simp [recognizeCommand, hbn, hbf]
    exact ⟨by simp [dispatch, hrc], by rw [handle_command_eq, hrc]; rfl⟩
  · intro hOn hOff
    have hbn : containsSub onKw (pyLower t) = false :=
      (containsSub_eq_false_iff _ _).mpr hOn
    have hbf : containsSub offKw (pyLower t) = false :=
      (containsSub_eq_false_iff _ _).mpr hOff
    have hrc : recognizeCommand (pyLower t) = Command.none := by
      simp [recognizeCommand, hbn, hbf]
    exact ⟨by simp [dispatch, hrc], by rw [handle_command_eq, hrc]; rfl⟩

/-- Witness for claim C1 at the documented loose-match input. -/
theorem dispatch_pure_keyword_rule_witness :
    dispatch "onion soup".toList = Command.turnOn
    ∧ applyEffects Level.low (handle_command (pyLower "onion soup".toList))
        = Level.high :=
  (dispatch_pure_keyword_rule "onion soup".toList "onion soup".toList
      Level.low).2.1 (by decide)

/-- Claim C2: an iteration in which the recognizer reports only a
partial result (`AcceptWaveform` returns false) performs no actuator
write and leaves the actuator unchanged; its only effects are the read,
the accept call, and a diagnostic print of the partial text. -/
theorem tentative_event_no_dispatch (led : Level) (f : FrameInput)
    (h0 : f.dataLen ≠ 0) (ha : f.accepted = false) :
    loopIter f = [Effect.streamRead, Effect.acceptWaveform,
        Effect.printMsg ("Partial result: " ++ String.mk f.partRes)]
    ∧ (∀ l, Effect.gpioOutput l ∉ loopIter f)
    ∧ applyEffects led (loopIter f) = led := by
  have hiter : loopIter f = [Effect.streamRead, Effect.acceptWaveform,
      Effect.printMsg ("Partial result: " ++ String.mk f.partRes)] := by
    simp [loopIter, h0, ha]
  refine ⟨hiter, ?_, ?_⟩
  · intro l hmem
    rw [hiter] at hmem
    rcases List.mem_cons.mp hmem with h | hmem
    · cases h
    rcases List.mem_cons.mp hmem with h | hmem
    · cases h
    rcases List.mem_cons.mp hmem with h | hmem
    · cases h
    · cases hmem
  · rw [hiter]
    rfl

/-- Witness for claim C2 on a concrete partial-only iteration. -/
theorem tentative_event_no_dispatch_witness :
    applyEffects Level.high (loopIter ⟨8192, false, [], "turn".toList⟩)
      = Level.high :=
  (tentative_event_no_dispatch Level.high ⟨8192, false, [], "turn".toList⟩
      (by decide) rfl).2.2

/-- Claim C3: an iteration whose read returns zero-length data only
performs the read: the frame never reaches the recognizer, no actuator
write occurs, the actuator is unchanged, and the loop goes on to the
next iteration. -/
theorem zero_frame_skipped (led : Level) (f : FrameInput)
    (fs : List FrameInput) (h0 : f.dataLen = 0) :
    loopIter f = [Effect.streamRead]
    ∧ Effect.acceptWaveform ∉ loopIter f
    ∧ (∀ l, Effect.gpioOutput l ∉ loopIter f)
    ∧ applyEffects led (loopIter f) = led
    ∧ runLoop (f :: fs) = Effect.streamRead :: runLoop fs := by
  have hiter : loopIter f = [Effect.streamRead] := by
    simp [loopIter, h0]
  refine ⟨hiter, ?_, ?_, ?_, ?_⟩
  · rw [hiter]
    intro hmem
    rcases List.mem_cons.mp hmem with h | h
    · cases h
    · cases h
  · intro l hmem
    rw [hiter] at hmem
    rcases List.mem_cons.mp hmem with h | h
    · cases h
    · cases h
  · rw [hiter]
    rfl
  · show loopIter f ++ runLoop fs = _
    rw [hiter]
    rfl

/-- Witness for claim C3 on a concrete zero-length read. -/
theorem zero_frame_skipped_witness :
    applyEffects Level.high (loopIter ⟨0, true, "on".toList, []⟩)
      = Level.high :=
  (zero_frame_skipped Level.high ⟨0, true, "on".toList, []⟩ [] rfl).2.2.2.1

/-- Claim C8: dispatching a text recognized as `TurnOn` twice in a row
leaves the actuator HIGH from any starting state: there is no toggle. -/
theorem turnOn_idempotent (s : Level) (t : List Char)
    (h : recognizeCommand t = Command.turnOn) :
    applyEffects (applyEffects s (handle_command t)) (handle_command t)
      = Level.high := by
  rw [handle_command_eq, h]
  rfl

/-- Witness for claim C8 at the text `"turn on"` from the `low` state. -/
theorem turnOn_idempotent_witness :
    applyEffects (applyEffects Level.low (handle_command "turn on".toList))
        (handle_command "turn on".toList) = Level.high :=
  turnOn_idempotent Level.low "turn on".toList (by decide)

/-- Claim C9: the keyword match inside `handle_command` is
case-sensitive: on any text with no lowercase `"on"` and no lowercase
`"off"` it makes no actuator call and leaves the actuator unchanged; in
particular it ignores `"TURN ON THE LIGHT"`, while the overall dispatch
still turns that text into `TurnOn` because the caller lowercases the
recognizer result first. -/
theorem handle_command_case_sensitive (s : Level) (t : List Char)
    (hOn : ¬ SubstringOf onKw t) (hOff : ¬ SubstringOf offKw t) :
    handle_command t = []
    ∧ applyEffects s (handle_command t) = s
    ∧ handle_command "TURN ON THE LIGHT".toList = []
    ∧ dispatch "TURN ON THE LIGHT".toList = Command.turnOn := by
  have h1 : containsSub onKw t = false :=
    (containsSub_eq_false_iff _ _).mpr hOn
  have h2 : containsSub offKw t = false :=
    (containsSub_eq_false_iff _ _).mpr hOff
  have hh : handle_command t = [] := by
    simp [handle_command, h1, h2]
  exact ⟨hh, by rw [hh]; rfl, by decide, by decide⟩

/-- Witness for claim C9 at the all-uppercase command text. -/
theorem handle_command_case_sensitive_witness :
    handle_command "TURN ON THE LIGHT".toList = []
    ∧ applyEffects Level.high (handle_command "TURN ON THE LIGHT".toList)
        = Level.high
    ∧ handle_command "TURN ON THE LIGHT".toList = []
    ∧ dispatch "TURN ON THE LIGHT".toList = Command.turnOn :=
  handle_command_case_sensitive Level.high "TURN ON THE LIGHT".toList
    (by decide) (by decide)

/-- Claim C10: each loop iteration performs at most one actuator write,
and never writes both HIGH and LOW in the same iteration: the on-branch
and off-branch of `handle_command` are mutually exclusive and at most
one final result is dispatched per accepted frame. -/
theorem at_most_one_actuator_write (f : FrameInput) :
    (loopIter f).countP isGpioWrite ≤ 1
    ∧ ¬(Effect.gpioOutput Level.high ∈ loopIter f
        ∧ Effect.gpioOutput Level.low ∈ loopIter f) := by
  by_cases h0 : f.dataLen = 0
  · simp [loopIter, h0, isGpioWrite]
  · cases ha : f.accepted
    · simp [loopIter, h0, ha, isGpioWrite]
    · cases hcmd : recognizeCommand (pyLower f.result) <;>
        simp [loopIter, h0, ha, handle_command_eq, hcmd, cmdEffects,
          isGpioWrite]

/-- Counterexample to claim C4 as stated: on the interrupt exit path the
run performs no recognizer-release call anywhere in its trace — the
claimed third shutdown step does not exist in the code — even though the
run does reach the `finally` block. -/
theorem shutdown_no_recognizer_release_counterexample :
    mainTrace ⟨true, [], ExitCause.interrupted⟩ =
      [Effect.gpioSetup, Effect.gpioOutput Level.low, Effect.openAudio,
       Effect.startStream,
       Effect.printMsg "Listening for \x27ON\x27 or \x27OFF\x27 commands...",
       Effect.printMsg "Program interrupted by user.",
       Effect.gpioCleanup, Effect.stopStream, Effect.closeStream,
       Effect.terminateAudio, Effect.printMsg "Cleaned up and exiting..."]
    ∧ Effect.freeRecognizer ∉ mainTrace ⟨true, [], ExitCause.interrupted⟩ :=
  ⟨rfl, by decide⟩

/-- Claim C4 as amended: on every exit path that reaches the loop
(interrupt or fatal error; the infinite loop has no normal completion),
the shutdown sequence runs exactly once and in order — GPIO cleanup
(leaving the actuator de-energized at `low`), then stream stop, stream
close and audio-system termination — and the actuator ends `low`; no
recognizer-release call occurs. -/
theorem shutdown_once_actuator_low (frames : List FrameInput)
    (cause : ExitCause) (led : Level) :
    (mainTrace ⟨true, frames, cause⟩).count Effect.gpioCleanup = 1
    ∧ (mainTrace ⟨true, frames, cause⟩).count Effect.stopStream = 1
    ∧ (mainTrace ⟨true, frames, cause⟩).count Effect.closeStream = 1
    ∧ (mainTrace ⟨true, frames, cause⟩).count Effect.terminateAudio = 1
    ∧ (∃ pre, mainTrace ⟨true, frames, cause⟩ =
        pre ++ shutdownTrace ++ [Effect.printMsg "Cleaned up and exiting..."])
    ∧ Effect.freeRecognizer ∉ mainTrace ⟨true, frames, cause⟩
    ∧ applyEffects led (mainTrace ⟨true, frames, cause⟩) = Level.low := by
  have hsplit := mainTrace_split frames cause
  have hc1 : (runLoop frames).count Effect.gpioCleanup = 0 :=
    List.count_eq_zero.mpr (runLoop_no_lifecycle frames _ (Or.inl rfl))
  have hc2 : (runLoop frames).count Effect.stopStream = 0 :=
    List.count_eq_zero.mpr
      (runLoop_no_lifecycle frames _ (Or.inr (Or.inl rfl)))
  have hc3 : (runLoop frames).count Effect.closeStream = 0 :=
    List.count_eq_zero.mpr
      (runLoop_no_lifecycle frames _ (Or.inr (Or.inr (Or.inl rfl))))
  have hc4 : (runLoop frames).count Effect.terminateAudio = 0 :=
    List.count_eq_zero.mpr
      (runLoop_no_lifecycle frames _ (Or.inr (Or.inr (Or.inr (Or.inl rfl)))))
  refine ⟨?_, ?_, ?_, ?_, ?_, ?_, ?_⟩
  · rw [hsplit]
    simp only [List.count_append, hc1]
    cases cause <;> decide
  · rw [hsplit]
    simp only [List.count_append, hc2]
    cases cause <;> decide
  · rw [hsplit]
    simp only [List.count_append, hc3]
    cases cause <;> decide
  · rw [hsplit]
    simp only [List.count_append, hc4]
    cases cause <;> decide
  · exact ⟨setupGpioTrace ++ listenTrace ++ runLoop frames ++
      causeTrace cause, by rw [hsplit]; simp [List.append_assoc]⟩
  · intro hmem
    rw [hsplit] at hmem
    rcases List.mem_append.mp hmem with h | h
    · rcases List.mem_append.mp h with h | h
      · rcases List.mem_append.mp h with h | h
        · rcases List.mem_append.mp h with h | h
          · simp [setupGpioTrace] at h
          · simp [listenTrace] at h
        · exact runLoop_no_lifecycle frames _
            (Or.inr (Or.inr (Or.inr (Or.inr (Or.inl rfl))))) h
      · cases cause <;> simp [causeTrace] at h
    · simp [shutdownTrace] at h
  · rw [hsplit, applyEffects_append]
    exact applyEffects_shutdown_low _

/-- Counterexample to claim C5 as stated: with the model directory
missing, the run still performs an actuator `setLevel` call — the LOW
initialization from `setup_gpio`, which executes before the model check
— while reporting the missing model. -/
theorem missing_model_setlevel_counterexample :
    Effect.gpioOutput Level.low ∈ mainTrace ⟨false, [], ExitCause.interrupted⟩
    ∧ mainOutcome ⟨false, [], ExitCause.interrupted⟩
        = Outcome.modelNotFound := by
  decide

/-- Claim C5 as amended: with the model directory missing the run raises
`FileNotFoundError` before reaching the capture loop: no frame is ever
read, the recognizer is never fed, the actuator is never driven HIGH and
never dispatched to; its only write is the LOW initialization that
`setup_gpio` performs before the model check. -/
theorem missing_model_stops_before_loop (frames : List FrameInput)
    (cause : ExitCause) :
    mainOutcome ⟨false, frames, cause⟩ = Outcome.modelNotFound
    ∧ mainTrace ⟨false, frames, cause⟩ = setupGpioTrace
    ∧ Effect.streamRead ∉ mainTrace ⟨false, frames, cause⟩
    ∧ Effect.acceptWaveform ∉ mainTrace ⟨false, frames, cause⟩
    ∧ Effect.gpioOutput Level.high ∉ mainTrace ⟨false, frames, cause⟩
    ∧ (∀ l, Effect.gpioOutput l ∈ mainTrace ⟨false, frames, cause⟩ →
        l = Level.low) := by
  have ht : mainTrace ⟨false, frames, cause⟩ = setupGpioTrace := by
    simp [mainTrace]
  refine ⟨rfl, ht, ?_, ?_, ?_, ?_⟩
  · rw [ht]
    decide
  · rw [ht]
    decide
  · rw [ht]
    decide
  · intro l hmem
    rw [ht] at hmem
    simpa [setupGpioTrace] using hmem

/-- Claim C6: a `KeyboardInterrupt` is caught, the same shutdown runs
(the `finally` effects end the trace and the actuator ends `low`), and
the process completes normally with a zero exit status instead of
propagating the interrupt. -/
theorem interrupt_normal_exit (frames : List FrameInput) (led : Level) :
    mainOutcome ⟨true, frames, ExitCause.interrupted⟩ = Outcome.exitZero
    ∧ (∃ pre, mainTrace ⟨true, frames, ExitCause.interrupted⟩ =
        pre ++ shutdownTrace ++ [Effect.printMsg "Cleaned up and exiting..."])
    ∧ applyEffects led (mainTrace ⟨true, frames, ExitCause.interrupted⟩)
        = Level.low := by
  have hsplit := mainTrace_split frames ExitCause.interrupted
  refine ⟨rfl, ?_, ?_⟩
  · exact ⟨setupGpioTrace ++ listenTrace ++ runLoop frames ++
      causeTrace ExitCause.interrupted,
      by rw [hsplit]; simp [List.append_assoc]⟩
  · rw [hsplit, applyEffects_append]
    exact applyEffects_shutdown_low _

/-- Counterexample to claim C7 as stated: if the first resource-release
step (`GPIO.cleanup`) raises, the shutdown sequence does raise, the
stream is never stopped and PyAudio is never terminated — a failure in
one step prevents the remaining steps and masks the primary exit cause. -/
theorem shutdown_raises_counterexample :
    (finallyRun ⟨true, false, false, false⟩).2 = true
    ∧ Effect.stopStream ∉ (finallyRun ⟨true, false, false, false⟩).1
    ∧ Effect.terminateAudio ∉ (finallyRun ⟨true, false, false, false⟩).1 := by
  decide

/-- Claim C7 as amended: the shutdown steps are four unguarded
statements: when no step raises they all run in order and nothing
propagates, but whenever any step raises the `finally` block itself
raises, and a failing first step aborts all remaining steps (its
exception replacing the primary cause of exit). -/
theorem shutdown_unguarded (fl : ShutdownFaults) :
    ((fl.cleanupFails = false ∧ fl.stopFails = false ∧ fl.closeFails = false
        ∧ fl.terminateFails = false) → finallyRun fl = (shutdownTrace, false))
    ∧ ((finallyRun fl).2 =
        (fl.cleanupFails || fl.stopFails || fl.closeFails
          || fl.terminateFails))
    ∧ (fl.cleanupFails = true → (finallyRun fl).1 = [Effect.gpioCleanup]) := by
  obtain ⟨a, b, c, d⟩ := fl
  cases a <;> cases b <;> cases c <;> cases d <;> decide

/-- Witness for the amended claim C7: the fault-free shutdown performs
exactly the four release effects and does not raise. -/
theorem shutdown_unguarded_witness :
    finallyRun ⟨false, false, false, false⟩ = (shutdownTrace, false) :=
  (shutdown_unguarded ⟨false, false, false, false⟩).1 ⟨rfl, rfl, rfl, rfl⟩

end VoiceLed
